import Mathlib

/-!
Verification of the BetaWala website performance-testing engine.

The development shallowly embeds the core of the repository:
* the scoring / recommendation engine `generateTestResults`,
* the streaming orchestrator `runPerformanceTest` (its emitted message stream),
* the load-time probe `simulateLoadTimeTest`,
* the Puppeteer load generator `runLoadTest` / `singleUserLoadTest`,
* the client-side URL validator `isValidUrl` and normalizer `formatUrl`.

Modelling conventions: JS numbers are embedded as `ℚ` (all arithmetic in the
sources is exact at the precision used), `toFixed(2)` is embedded as rounding
to hundredths (`round2`), and the wall-clock / `Math.random()` reads of the
sources are passed as explicit arguments, so every function is a pure Lean
function of its inputs.
-/

/-- Embeds JS `x.toFixed(2)` (as later re-read by `Number.parseFloat`): the
numeric value rounded to the nearest hundredth. -/
def round2 (q : ℚ) : ℚ := ((round (q * 100) : ℤ) : ℚ) / 100

/-- Substring test on character lists; embeds JS `String.prototype.includes`. -/
def containsSub (needle hay : List Char) : Bool :=
  match hay with
  | [] => needle.isEmpty
  | _ :: t => needle.isPrefixOf hay || containsSub needle t

/-- Embeds the `isLocalhost` test of `simulateLoadTimeTest`:
`url.includes("localhost") || url.includes("127.0.0.1") || url.includes("192.168.") || url.includes("10.")`. -/
def isLocalhostUrl (url : String) : Bool :=
  containsSub "localhost".data url.data || containsSub "127.0.0.1".data url.data ||
    containsSub "192.168.".data url.data || containsSub "10.".data url.data

/-- Environment consumed by the load-time probe: the `Math.random()` draw used
by whichever branch runs, whether the remote `fetch` HEAD request throws or
times out, and the measured elapsed wall-clock milliseconds on success. -/
structure ProbeEnv where
  rand : ℚ
  fetchFails : Bool
  elapsedMs : ℚ

/-- Result of the load-time probe.  The source returns only the seconds figure
(a 2-decimal string); `fetchAttempted` additionally records the observable
effect of taking the remote branch.  There is no degraded/fallback flag in the
source, which is exactly what claim C7 is about. -/
structure ProbeResult where
  value : ℚ
  fetchAttempted : Bool

/-- Embeds `simulateLoadTimeTest` (src/unnamed/part_000 lines 141-194):
localhost URLs get a synthetic draw `Math.random() * 1 + 0.3`; remote URLs are
HEAD-fetched and timed; on fetch error/timeout the fallback is
`Math.random() * 3 + 1`.  All three figures pass through `toFixed(2)`. -/
def simulateLoadTimeTest (url : String) (env : ProbeEnv) : ProbeResult :=
  if isLocalhostUrl url then
    { value := round2 (env.rand * 1 + 3 / 10), fetchAttempted := false }
  else if env.fetchFails then
    { value := round2 (env.rand * 3 + 1), fetchAttempted := true }
  else
    { value := round2 (env.elapsedMs / 1000), fetchAttempted := true }

/-- One entry of the report issue list. -/
structure Issue where
  severity : String
  description : String

/-- The aggregate returned by `simulateLoadTest` and consumed by
`generateTestResults` as `testData.loadTestResults`. -/
structure LoadTestResults where
  totalRequests : ℕ
  failedRequests : ℕ
  avgResponseTime : ℚ
  maxResponseTime : ℚ

/-- The metrics bundle handed to `generateTestResults`.  `loadTime` is the
parsed value of the probe string (`Number.parseFloat(testData.loadTime)`). -/
structure TestData where
  loadTime : ℚ
  brokenLinks : List String
  mobileScore : ℤ
  loadTestResults : LoadTestResults

/-- The final report produced by `generateTestResults`. -/
structure Report where
  url : String
  timestamp : String
  overallScore : ℤ
  loadTime : ℚ
  speedIndex : ℚ
  totalRequests : ℕ
  failedRequests : ℕ
  mobileScore : ℤ
  brokenLinks : List String
  issues : List Issue
  recommendations : List String

/-- Embeds `generateTestResults` (src/unnamed/part_000 lines 262-335).  The
source reads the clock via `new Date().toISOString()`; the clock read is the
explicit `timestamp` argument here.  The sequential score mutations are the
let-chain `s1 … s5`; `Math.round` on the already-integral clamped score is the
identity, so `overallScore` is the clamped integer itself.  Issue description
strings interpolate numbers with Lean `toString`, which differs from JS number
formatting; no claim depends on the description text. -/
def generateTestResults (url timestamp : String) (testData : TestData) : Report :=
  let loadTime := testData.loadTime
  let mobileScore := testData.mobileScore
  let failedRequests := testData.loadTestResults.failedRequests
  let s1 : ℤ := 100
  let s2 := if loadTime > 3 then s1 - 20 else if loadTime > 2 then s1 - 10
            else if loadTime > 1 then s1 - 5 else s1
  let s3 := if mobileScore < 80 then s2 - 15 else if mobileScore < 90 then s2 - 5 else s2
  let s4 := s3 - (failedRequests : ℤ) * 5
  let s5 := s4 - (testData.brokenLinks.length : ℤ) * 10
  let overallScore := max 0 (min 100 s5)
  let issues : List Issue :=
    (if loadTime > 2 then
      [{ severity := if loadTime > 4 then "high" else "medium",
         description := "Page load time is " ++ toString loadTime ++
           "s, which may impact user experience" }]
     else []) ++
    (if mobileScore < 85 then
      [{ severity := "medium", description := "Mobile responsiveness could be improved" }]
     else []) ++
    (if testData.brokenLinks.length > 0 then
      [{ severity := "high",
         description := "Found " ++ toString testData.brokenLinks.length ++ " broken links" }]
     else []) ++
    (if failedRequests > 0 then
      [{ severity := "medium",
         description := toString failedRequests ++ " requests failed during load testing" }]
     else [])
  let recommendations : List String :=
    (if loadTime > 2 then ["Optimize images and enable compression to reduce load times"] else []) ++
    (if mobileScore < 85 then ["Ensure responsive design works well on all device sizes"] else []) ++
    (if testData.brokenLinks.length > 0 then
      ["Fix broken links to improve user experience and SEO"] else []) ++
    (if failedRequests > 0 then ["Investigate server stability under load"] else [])
  { url := url
    timestamp := timestamp
    overallScore := overallScore
    loadTime := loadTime
    speedIndex := round2 (loadTime * (6 / 5))
    totalRequests := testData.loadTestResults.totalRequests
    failedRequests := failedRequests
    mobileScore := mobileScore
    brokenLinks := testData.brokenLinks
    issues := issues
    recommendations := recommendations }

/-- Load-time deduction exactly as the spec words it: minus 20 if over 3s,
else 10 if over 2s, else 5 if over 1s, else nothing. -/
def specLoadDeduction (lt : ℚ) : ℤ :=
  if lt > 3 then 20 else if lt > 2 then 10 else if lt > 1 then 5 else 0

/-- Mobile deduction exactly as the spec words it: minus 15 below 80, else 5
below 90, else nothing. -/
def specMobileDeduction (ms : ℤ) : ℤ :=
  if ms < 80 then 15 else if ms < 90 then 5 else 0

/-- Overall score exactly as the spec words it: 100 minus the four category
deductions, clamped to the interval from 0 to 100. -/
def specOverallScore (lt : ℚ) (ms : ℤ) (failed links : ℕ) : ℤ :=
  max 0 (min 100 (100 - specLoadDeduction lt - specMobileDeduction ms -
    5 * (failed : ℤ) - 10 * (links : ℤ)))

/-- Concrete bundle of claim C2: loadTime 4.5, mobile 65, 2 failed requests,
2 broken links. -/
def td45 : TestData :=
  { loadTime := 9 / 2
    brokenLinks := ["/old-page", "/missing-image.jpg"]
    mobileScore := 65
    loadTestResults :=
      { totalRequests := 100, failedRequests := 2, avgResponseTime := 1, maxResponseTime := 3 } }

/-- Deterministic bundle reused by the C3 counterexample. -/
def tdFixed : TestData :=
  { loadTime := 2
    brokenLinks := []
    mobileScore := 95
    loadTestResults :=
      { totalRequests := 100, failedRequests := 0, avgResponseTime := 1, maxResponseTime := 2 } }

/-- C1: for every metrics bundle, `generateTestResults` computes
`overallScore` as 100 minus the load-time bracket deduction (20 over 3s, else
10 over 2s, else 5 over 1s), minus the mobile deduction (15 below 80, else 5
below 90), minus 5 per failed request and 10 per broken link, clamped to the
interval from 0 to 100 (so never negative, however extreme the inputs); the
clamped value is an integer, so rounding to the nearest integer is the
identity on it. -/
theorem generateTestResults_overallScore_spec (url ts : String) (td : TestData) :
    (generateTestResults url ts td).overallScore =
      specOverallScore td.loadTime td.mobileScore
        td.loadTestResults.failedRequests td.brokenLinks.length ∧
    0 ≤ (generateTestResults url ts td).overallScore ∧
    (generateTestResults url ts td).overallScore ≤ 100 := by
  refine ⟨?_, ?_, ?_⟩ <;>
    simp only [generateTestResults, specOverallScore, specLoadDeduction, specMobileDeduction] <;>
    split_ifs <;> omega

/-- C2: on the bundle loadTime 4.5, mobileScore 65, 2 failed requests and 2
broken links the report scores exactly 35, carries exactly four issues whose
severities are (in source order load, mobile, links, failed) high, medium,
high, medium, and carries exactly the four category recommendation strings. -/
theorem generateTestResults_at_example_bundle :
    (generateTestResults "https://example.com" "2024-01-01T00:00:00.000Z" td45).overallScore = 35 ∧
    ((generateTestResults "https://example.com" "2024-01-01T00:00:00.000Z" td45).issues.map
      Issue.severity) = ["high", "medium", "high", "medium"] ∧
    (generateTestResults "https://example.com" "2024-01-01T00:00:00.000Z" td45).issues.length = 4 ∧
    (generateTestResults "https://example.com" "2024-01-01T00:00:00.000Z" td45).recommendations =
      ["Optimize images and enable compression to reduce load times",
       "Ensure responsive design works well on all device sizes",
       "Fix broken links to improve user experience and SEO",
       "Investigate server stability under load"] := by
  refine ⟨?_, ?_, ?_, ?_⟩ <;> norm_num [generateTestResults, td45]

/-- C3 counterexample: `generateTestResults` reads the clock
(`new Date().toISOString()`), so two invocations on the same url and metrics
bundle at different instants return reports differing in the `timestamp`
field: the function is not independent of state outside (url, metrics). -/
theorem generateTestResults_not_time_independent :
    (generateTestResults "https://example.com" "2024-01-01T00:00:00.000Z" tdFixed).timestamp =
      "2024-01-01T00:00:00.000Z" ∧
    (generateTestResults "https://example.com" "2024-01-01T00:00:01.000Z" tdFixed).timestamp =
      "2024-01-01T00:00:01.000Z" ∧
    generateTestResults "https://example.com" "2024-01-01T00:00:00.000Z" tdFixed ≠
      generateTestResults "https://example.com" "2024-01-01T00:00:01.000Z" tdFixed := by
  refine ⟨rfl, rfl, fun h => ?_⟩
  have h2 := congrArg Report.timestamp h
  have h3 : ("2024-01-01T00:00:00.000Z" : String) = "2024-01-01T00:00:01.000Z" := h2
  exact absurd h3 (by decide)

/-- C3 amended: apart from the wall-clock `timestamp` field, every field of the
report is a deterministic function of the url and the metrics bundle alone:
two invocations with the same inputs but different clock reads agree on url,
overallScore, loadTime, speedIndex, totalRequests, failedRequests,
mobileScore, brokenLinks, issues and recommendations. -/
theorem generateTestResults_deterministic_except_timestamp
    (url ts1 ts2 : String) (td : TestData) :
    (generateTestResults url ts1 td).url = (generateTestResults url ts2 td).url ∧
    (generateTestResults url ts1 td).overallScore = (generateTestResults url ts2 td).overallScore ∧
    (generateTestResults url ts1 td).loadTime = (generateTestResults url ts2 td).loadTime ∧
    (generateTestResults url ts1 td).speedIndex = (generateTestResults url ts2 td).speedIndex ∧
    (generateTestResults url ts1 td).totalRequests =
      (generateTestResults url ts2 td).totalRequests ∧
    (generateTestResults url ts1 td).failedRequests =
      (generateTestResults url ts2 td).failedRequests ∧
    (generateTestResults url ts1 td).mobileScore = (generateTestResults url ts2 td).mobileScore ∧
    (generateTestResults url ts1 td).brokenLinks = (generateTestResults url ts2 td).brokenLinks ∧
    (generateTestResults url ts1 td).issues = (generateTestResults url ts2 td).issues ∧
    (generateTestResults url ts1 td).recommendations =
      (generateTestResults url ts2 td).recommendations :=
  ⟨rfl, rfl, rfl, rfl, rfl, rfl, rfl, rfl, rfl, rfl⟩

/-- C4 counterexample: at loadTime 1.5 with mobileScore 87 both the load-time
bracket (over 1s) and the mobile bracket (below 90) deduct points, so the
score drops to 90, yet the issues and recommendations lists are both empty:
an issue does not appear whenever a scoring threshold is violated (the issue
cut points are over 2s and below 85, not over 1s and below 90). -/
theorem generateTestResults_issue_cutpoints_differ_from_score :
    (generateTestResults "https://example.com" "2024-01-01T00:00:00.000Z"
      { loadTime := 3 / 2
        brokenLinks := []
        mobileScore := 87
        loadTestResults :=
          { totalRequests := 100, failedRequests := 0
            avgResponseTime := 1, maxResponseTime := 2 } }).overallScore = 90 ∧
    (generateTestResults "https://example.com" "2024-01-01T00:00:00.000Z"
      { loadTime := 3 / 2
        brokenLinks := []
        mobileScore := 87
        loadTestResults :=
          { totalRequests := 100, failedRequests := 0
            avgResponseTime := 1, maxResponseTime := 2 } }).issues = [] ∧
    (generateTestResults "https://example.com" "2024-01-01T00:00:00.000Z"
      { loadTime := 3 / 2
        brokenLinks := []
        mobileScore := 87
        loadTestResults :=
          { totalRequests := 100, failedRequests := 0
            avgResponseTime := 1, maxResponseTime := 2 } }).recommendations = [] := by
  refine ⟨?_, ?_, ?_⟩ <;> norm_num [generateTestResults]

/-- C4 amended: the issues list carries exactly one entry per fired category
and nothing else, but the issue cut points are loadTime over 2s (severity high
above 4s, else medium), mobileScore below 85 (medium), a non-empty broken-link
list (high) and failedRequests positive (medium) — not the scoring thresholds
over 1s / below 90; and the recommendations list carries exactly one fixed
string per fired category, each present if and only if its category fired. -/
theorem generateTestResults_issues_and_recommendations (url ts : String) (td : TestData) :
    ((generateTestResults url ts td).issues.map Issue.severity) =
      ((if td.loadTime > 2 then [if td.loadTime > 4 then "high" else "medium"] else []) ++
       (if td.mobileScore < 85 then ["medium"] else []) ++
       (if td.brokenLinks.length > 0 then ["high"] else []) ++
       (if td.loadTestResults.failedRequests > 0 then ["medium"] else [])) ∧
    (generateTestResults url ts td).recommendations =
      ((if td.loadTime > 2 then
          ["Optimize images and enable compression to reduce load times"] else []) ++
       (if td.mobileScore < 85 then
          ["Ensure responsive design works well on all device sizes"] else []) ++
       (if td.brokenLinks.length > 0 then
          ["Fix broken links to improve user experience and SEO"] else []) ++
       (if td.loadTestResults.failedRequests > 0 then
          ["Investigate server stability under load"] else [])) ∧
    ("Optimize images and enable compression to reduce load times" ∈
        (generateTestResults url ts td).recommendations ↔ td.loadTime > 2) ∧
    ("Ensure responsive design works well on all device sizes" ∈
        (generateTestResults url ts td).recommendations ↔ td.mobileScore < 85) ∧
    ("Fix broken links to improve user experience and SEO" ∈
        (generateTestResults url ts td).recommendations ↔ td.brokenLinks.length > 0) ∧
    ("Investigate server stability under load" ∈
        (generateTestResults url ts td).recommendations ↔
      td.loadTestResults.failedRequests > 0) := by
  refine ⟨?_, ?_, ?_, ?_, ?_, ?_⟩ <;>
    simp only [generateTestResults] <;>
    split_ifs <;> simp_all

/-- One newline-delimited JSON message of the response stream.  `progress` and
`status` are present exactly on the orchestrator checkpoint messages; the
metric-only messages of the sub-stages carry neither.  The metric payload
contents are elided (`hasMetrics` records presence only); no claim refers to
them. -/
structure StreamMsg where
  progress : Option ℕ
  status : Option String
  hasMetrics : Bool
  results : Option Report

/-- A checkpoint message of `runPerformanceTest`: progress percent, status
label and a metrics snapshot. -/
def pmsg (p : ℕ) (st : String) : StreamMsg :=
  { progress := some p, status := some st, hasMetrics := true, results := none }

/-- A metric-only message, as emitted inside the probe stages: no progress
field, no status field. -/
def mmsg : StreamMsg :=
  { progress := none, status := none, hasMetrics := true, results := none }

/-- Embeds the message stream of a successful `runPerformanceTest` run
(src/unnamed/part_000 lines 23-139): checkpoints at 0, 20, 40, 60, 80, 100 and
a final results message at 100, with the metric-only messages of the probe
stages interleaved (1 from the load-time probe, 3 from the link check, 4 from
the mobile test, 10 from the load test).  The stage randomness is passed
explicitly: the probe environment, the broken-link draw, the mobile score
draw, and the load-test draws (`failRand`, response-time draws); the source
always reports `totalRequests = concurrent * 10`. -/
def runPerformanceTestStream (url ts : String) (penv : ProbeEnv) (brokenLinks : List String)
    (mobileScore : ℤ) (concurrent failRand : ℕ) (avgR maxR : ℚ) : List StreamMsg :=
  let loadTime := (simulateLoadTimeTest url penv).value
  let loadTestResults : LoadTestResults :=
    { totalRequests := concurrent * 10, failedRequests := failRand
      avgResponseTime := avgR, maxResponseTime := maxR }
  let results := generateTestResults url ts
    { loadTime := loadTime, brokenLinks := brokenLinks
      mobileScore := mobileScore, loadTestResults := loadTestResults }
  [pmsg 0 "Initializing performance test...",
   pmsg 20 "Measuring page load time...",
   mmsg,
   pmsg 40 "Checking for broken links..."] ++ List.replicate 3 mmsg ++
  [pmsg 60 "Testing mobile responsiveness..."] ++ List.replicate 4 mmsg ++
  [pmsg 80 "Running concurrent user simulation..."] ++ List.replicate 10 mmsg ++
  [pmsg 100 "Generating report...",
   { progress := some 100, status := some "Test completed!", hasMetrics := false,
     results := some results }]

/-- The sequence of progress values carried by the messages that have a
progress field. -/
def progressTrace (ms : List StreamMsg) : List ℕ :=
  ms.filterMap (fun m => m.progress)

/-- C5: on every successful run, whatever the stage randomness, the progress
values carried by the stream are exactly 0, 20, 40, 60, 80, 100, 100 — a
non-decreasing sequence (the metric-only messages carry no progress field) —
and the final message of the stream carries progress exactly 100. -/
theorem runPerformanceTestStream_progress_monotone (url ts : String) (penv : ProbeEnv)
    (brokenLinks : List String) (mobileScore : ℤ) (concurrent failRand : ℕ) (avgR maxR : ℚ) :
    progressTrace
        (runPerformanceTestStream url ts penv brokenLinks mobileScore concurrent
          failRand avgR maxR) = [0, 20, 40, 60, 80, 100, 100] ∧
    List.Pairwise (· ≤ ·)
      (progressTrace
        (runPerformanceTestStream url ts penv brokenLinks mobileScore concurrent
          failRand avgR maxR)) ∧
    ((runPerformanceTestStream url ts penv brokenLinks mobileScore concurrent
        failRand avgR maxR).getLast?.bind StreamMsg.progress) = some 100 := by
  have h : progressTrace
      (runPerformanceTestStream url ts penv brokenLinks mobileScore concurrent
        failRand avgR maxR) = [0, 20, 40, 60, 80, 100, 100] := rfl
  exact ⟨h, h ▸ (by decide), rfl⟩

/-- One settled navigation outcome inside `runLoadTest`
(src/unnamed/part_001): a fulfilled `singleUserLoadTest` returns
`{loadTime, statusCode, success: statusCode < 400}`; a caught navigation error
or a rejected promise produces `{error: message}`. -/
inductive LoadOutcome where
  | ok (loadTime : ℚ) (statusCode : ℕ)
  | err (msg : String)

/-- JS truthiness of `r.error` as used by `results.filter((r) => r.error)`:
the error field is present and a non-empty string. -/
def LoadOutcome.hasError : LoadOutcome → Bool
  | .ok _ _ => false
  | .err msg => msg ≠ ""

/-- Access to `r.loadTime`: present only on fulfilled navigations. -/
def LoadOutcome.loadTimeField : LoadOutcome → Option ℚ
  | .ok t _ => some t
  | .err _ => none

/-- The `success` field `singleUserLoadTest` computes
(`response.status() < 400`, and `false` on a caught error).  `runLoadTest`
never consults it. -/
def LoadOutcome.successField : LoadOutcome → Bool
  | .ok _ code => code < 400
  | .err _ => false

/-- The aggregate `runLoadTest` returns. -/
structure LoadTestSummary where
  totalRequests : ℕ
  successfulRequests : ℕ
  failedRequests : ℕ
  successRate : ℚ
  averageLoadTime : Option ℚ
  minLoadTime : Option ℚ
  maxLoadTime : Option ℚ
  errors : List String

/-- Embeds the analysis part of `runLoadTest` (src/unnamed/part_001 lines
331-371) over the settled batches the while-loop recorded.  `loadTimes`
mirrors `successful.map((r) => r.loadTime).filter((t) => t)`: the truthiness
filter drops a missing or zero load time.  `successRate` divides by the result
count (the JS value is NaN on an empty result list where `ℚ` division yields
0; no claim touches that field).  The average / spread-min / spread-max are
guarded by `loadTimes.length > 0` and are null otherwise. -/
def runLoadTest (batches : List (List LoadOutcome)) : LoadTestSummary :=
  let results := batches.flatten
  let successful := results.filter (fun r => !r.hasError)
  let failed := results.filter (fun r => r.hasError)
  let loadTimes := (successful.filterMap LoadOutcome.loadTimeField).filter (fun t => t != 0)
  { totalRequests := results.length
    successfulRequests := successful.length
    failedRequests := failed.length
    successRate := (successful.length : ℚ) / (results.length : ℚ) * 100
    averageLoadTime :=
      match loadTimes with
      | [] => none
      | t :: ts => some ((t :: ts).sum / ((t :: ts).length : ℚ))
    minLoadTime :=
      match loadTimes with
      | [] => none
      | t :: ts => some (ts.foldl min t)
    maxLoadTime :=
      match loadTimes with
      | [] => none
      | t :: ts => some (ts.foldl max t)
    errors := failed.map (fun r => match r with | .err m => m | .ok _ _ => "") }

/-- Flattening batch-wise filtered lists is filtering the flattening. -/
theorem flatten_map_filter {α : Type} (p : α → Bool) (L : List (List α)) :
    (L.map (List.filter p)).flatten = L.flatten.filter p := by
  induction L with
  | nil => rfl
  | cons h t ih => simp only [List.map_cons, List.flatten_cons, List.filter_append, ih]

/-- Filtering twice with the same predicate is filtering once. -/
theorem filter_idem {α : Type} (p : α → Bool) (l : List α) :
    (l.filter p).filter p = l.filter p := by
  induction l with
  | nil => rfl
  | cons a t ih =>
    by_cases h : p a <;> simp [List.filter_cons, h, ih]

/-- C6: for every run of the load generator, the reported `totalRequests` is
the number of individual outcomes recorded across all batches, `failedRequests`
never exceeds it, the latency aggregates are computed only over the successful
outcomes (removing every failed outcome from the batches leaves
`averageLoadTime` and `maxLoadTime` unchanged), and both aggregates are null
when there are zero successful outcomes. -/
theorem runLoadTest_aggregates (batches : List (List LoadOutcome)) :
    (runLoadTest batches).totalRequests = (batches.map List.length).sum ∧
    (runLoadTest batches).failedRequests ≤ (runLoadTest batches).totalRequests ∧
    ((runLoadTest batches).successfulRequests = 0 →
      (runLoadTest batches).averageLoadTime = none ∧
      (runLoadTest batches).maxLoadTime = none) ∧
    (runLoadTest batches).averageLoadTime =
      (runLoadTest (batches.map (List.filter (fun r => !r.hasError)))).averageLoadTime ∧
    (runLoadTest batches).maxLoadTime =
      (runLoadTest (batches.map (List.filter (fun r => !r.hasError)))).maxLoadTime := by
  refine ⟨?_, ?_, ?_, ?_, ?_⟩
  · simp [runLoadTest, List.length_flatten]
  · simpa [runLoadTest] using List.length_filter_le _ batches.flatten
  · intro h0
    have hs : batches.flatten.filter (fun r => !r.hasError) = [] :=
      List.length_eq_zero.mp (by simpa [runLoadTest] using h0)
    constructor <;> simp [runLoadTest, hs]
  · simp only [runLoadTest, flatten_map_filter, filter_idem]
  · simp only [runLoadTest, flatten_map_filter, filter_idem]

/-- C6 witness: a single batch with one rejected navigation has one recorded
outcome, a failure count within bounds, and null latency aggregates. -/
theorem runLoadTest_aggregates_witness :
    (runLoadTest [[LoadOutcome.err "net::ERR_CONNECTION_REFUSED"]]).totalRequests = 1 ∧
    (runLoadTest [[LoadOutcome.err "net::ERR_CONNECTION_REFUSED"]]).averageLoadTime = none ∧
    (runLoadTest [[LoadOutcome.err "net::ERR_CONNECTION_REFUSED"]]).maxLoadTime = none := by
  have h := runLoadTest_aggregates [[LoadOutcome.err "net::ERR_CONNECTION_REFUSED"]]
  have h0 : (runLoadTest [[LoadOutcome.err "net::ERR_CONNECTION_REFUSED"]]).successfulRequests
      = 0 := by decide
  exact ⟨by simpa using h.1, (h.2.2.1 h0).1, (h.2.2.1 h0).2⟩

/-- C10: a navigation whose promise fulfils is classified by `runLoadTest` as
successful regardless of its HTTP status: an outcome with status 400 or above
has `success = false` in `singleUserLoadTest`, carries no error field, is not
counted among `failedRequests`, is counted among `successfulRequests`, and its
(non-zero) load time enters the latency average and maximum. -/
theorem runLoadTest_counts_http_errors_as_success (lt : ℚ) (code : ℕ)
    (hcode : 400 ≤ code) (hlt : lt ≠ 0) :
    LoadOutcome.successField (LoadOutcome.ok lt code) = false ∧
    LoadOutcome.hasError (LoadOutcome.ok lt code) = false ∧
    (runLoadTest [[LoadOutcome.ok lt code,
        LoadOutcome.err "Navigation timeout of 30000 ms exceeded"]]).successfulRequests = 1 ∧
    (runLoadTest [[LoadOutcome.ok lt code,
        LoadOutcome.err "Navigation timeout of 30000 ms exceeded"]]).failedRequests = 1 ∧
    (runLoadTest [[LoadOutcome.ok lt code,
        LoadOutcome.err "Navigation timeout of 30000 ms exceeded"]]).averageLoadTime = some lt ∧
    (runLoadTest [[LoadOutcome.ok lt code,
        LoadOutcome.err "Navigation timeout of 30000 ms exceeded"]]).maxLoadTime = some lt := by
  have herr : LoadOutcome.hasError
      (LoadOutcome.err "Navigation timeout of 30000 ms exceeded") = true := by decide
  refine ⟨?_, rfl, ?_, ?_, ?_, ?_⟩
  · simp only [LoadOutcome.successField, decide_eq_false_iff_not]
    omega
  all_goals
    simp [runLoadTest, LoadOutcome.hasError, LoadOutcome.loadTimeField, herr,
      List.filter_cons, bne_iff_ne, hlt]

/-- C10 witness: a fulfilled navigation with HTTP status 404 and load time 2
seconds is a success for the aggregator and sets the latency average. -/
theorem runLoadTest_counts_http_errors_as_success_witness :
    LoadOutcome.successField (LoadOutcome.ok 2 404) = false ∧
    (runLoadTest [[LoadOutcome.ok 2 404,
        LoadOutcome.err "Navigation timeout of 30000 ms exceeded"]]).averageLoadTime = some 2 := by
  have h := runLoadTest_counts_http_errors_as_success 2 404 (by decide) two_ne_zero
  exact ⟨h.1, h.2.2.2.2.1⟩

/-- Evaluation rule for `round2`: if the scaled value sits in the half-open
unit interval at `n`, the rounding returns `n` hundredths. -/
theorem round2_eval (x : ℚ) (n : ℤ) (h1 : (n : ℚ) ≤ x * 100 + 1 / 2)
    (h2 : x * 100 + 1 / 2 < n + 1) : round2 x = (n : ℚ) / 100 := by
  unfold round2
  rw [round_eq, Int.floor_eq_iff.mpr ⟨h1, h2⟩]

/-- Lower bound on `round2`: rounding cannot drop below a hundredths bound
satisfied by the input. -/
theorem le_round2 {x : ℚ} (n : ℤ) (h : (n : ℚ) / 100 ≤ x) : (n : ℚ) / 100 ≤ round2 x := by
  unfold round2
  rw [round_eq]
  have hf : n ≤ ⌊x * 100 + 1 / 2⌋ := Int.le_floor.mpr (by nlinarith)
  have : (n : ℚ) ≤ ((⌊x * 100 + 1 / 2⌋ : ℤ) : ℚ) := by exact_mod_cast hf
  linarith

/-- Upper bound on `round2`: rounding cannot exceed a strict hundredths bound
on the input. -/
theorem round2_le {x : ℚ} (n : ℤ) (h : x < (n : ℚ) / 100) : round2 x ≤ (n : ℚ) / 100 := by
  unfold round2
  rw [round_eq]
  have hf : ⌊x * 100 + 1 / 2⌋ < n + 1 := Int.floor_lt.mpr (by push_cast; nlinarith)
  have hf2 : ⌊x * 100 + 1 / 2⌋ ≤ n := by omega
  have : ((⌊x * 100 + 1 / 2⌋ : ℤ) : ℚ) ≤ (n : ℚ) := by exact_mod_cast hf2
  linarith

/-- Probe environment of a public-host run whose HEAD request errors out with
the random draw at one half. -/
def envRemoteErr : ProbeEnv := { rand := 1 / 2, fetchFails := true, elapsedMs := 0 }

/-- Probe environment of a public-host run whose HEAD request succeeds after
2500 milliseconds. -/
def envRemoteOk : ProbeEnv := { rand := 0, fetchFails := false, elapsedMs := 2500 }

/-- C7 counterexample: the probe returns a bare seconds figure with no
degraded flag: an errored run (fallback draw one half, so 0.5 * 3 + 1 = 2.50)
and a real 2500 ms measurement produce byte-identical results, so a fallback
is not distinguishable from a real measurement. -/
theorem simulateLoadTimeTest_fallback_indistinguishable :
    envRemoteErr.fetchFails = true ∧ envRemoteOk.fetchFails = false ∧
    simulateLoadTimeTest "https://example.com" envRemoteErr =
      simulateLoadTimeTest "https://example.com" envRemoteOk := by
  refine ⟨rfl, rfl, ?_⟩
  have h1 : round2 ((1 : ℚ) / 2 * 3 + 1) = ((250 : ℤ) : ℚ) / 100 :=
    round2_eval _ 250 (by norm_num) (by norm_num)
  have h2 : round2 ((2500 : ℚ) / 1000) = ((250 : ℤ) : ℚ) / 100 :=
    round2_eval _ 250 (by norm_num) (by norm_num)
  have e1 : simulateLoadTimeTest "https://example.com" envRemoteErr =
      { value := round2 ((1 : ℚ) / 2 * 3 + 1), fetchAttempted := true } := rfl
  have e2 : simulateLoadTimeTest "https://example.com" envRemoteOk =
      { value := round2 ((2500 : ℚ) / 1000), fetchAttempted := true } := rfl
  rw [e1, e2, h1, h2]

/-- C7 amended: the probe result is only the seconds figure (plus, in this
model, the record of whether a fetch was attempted); there is no degraded
flag.  For a public host, the error path returns the fallback
`Math.random() * 3 + 1` rounded to hundredths — a value in the closed interval
from 1 to 4 — and the success path returns the elapsed milliseconds over 1000
rounded to hundredths; both paths mark the fetch as attempted, and nothing in
the result identifies the fallback. -/
theorem simulateLoadTimeTest_remote_paths (url : String) (env : ProbeEnv)
    (hl : isLocalhostUrl url = false) (h0 : 0 ≤ env.rand) (h1 : env.rand < 1) :
    (env.fetchFails = true →
      (simulateLoadTimeTest url env).value = round2 (env.rand * 3 + 1) ∧
      1 ≤ (simulateLoadTimeTest url env).value ∧
      (simulateLoadTimeTest url env).value ≤ 4 ∧
      (simulateLoadTimeTest url env).fetchAttempted = true) ∧
    (env.fetchFails = false →
      (simulateLoadTimeTest url env).value = round2 (env.elapsedMs / 1000) ∧
      (simulateLoadTimeTest url env).fetchAttempted = true) := by
  constructor
  · intro hf
    have hval : (simulateLoadTimeTest url env).value = round2 (env.rand * 3 + 1) := by
      simp [simulateLoadTimeTest, hl, hf]
    have hlo : ((100 : ℤ) : ℚ) / 100 ≤ env.rand * 3 + 1 := by push_cast; linarith
    have hhi : env.rand * 3 + 1 < ((400 : ℤ) : ℚ) / 100 := by push_cast; linarith
    have hge := le_round2 100 hlo
    have hle := round2_le 400 hhi
    refine ⟨hval, ?_, ?_, by simp [simulateLoadTimeTest, hl, hf]⟩
    · rw [hval]; calc (1 : ℚ) = ((100 : ℤ) : ℚ) / 100 := by norm_num
        _ ≤ _ := hge
    · rw [hval]; calc round2 (env.rand * 3 + 1) ≤ ((400 : ℤ) : ℚ) / 100 := hle
        _ = 4 := by norm_num
  · intro hf
    constructor <;> simp [simulateLoadTimeTest, hl, hf]

/-- C7 witness: a public-host errored probe with draw 0 returns exactly 1
second and sits inside the fallback bounds. -/
theorem simulateLoadTimeTest_remote_paths_witness :
    1 ≤ (simulateLoadTimeTest "https://example.com"
      { rand := 0, fetchFails := true, elapsedMs := 0 }).value ∧
    (simulateLoadTimeTest "https://example.com"
      { rand := 0, fetchFails := true, elapsedMs := 0 }).value ≤ 4 := by
  have h := simulateLoadTimeTest_remote_paths "https://example.com"
    { rand := 0, fetchFails := true, elapsedMs := 0 } (by decide) (le_refl 0) zero_lt_one
  exact ⟨(h.1 rfl).2.1, (h.1 rfl).2.2.1⟩

/-- One token of the regex fragment used by the private-host patterns: a
literal run, or one-or-more ASCII digits.  In these patterns every digit run
is followed by a non-digit literal (or the end), so greedy matching without
backtracking coincides with regex semantics. -/
inductive Tok where
  | lit : List Char → Tok
  | digits : Tok

/-- Matches a token list at the front of the input, returning the remaining
characters on success. -/
def runToks : List Tok → List Char → Option (List Char)
  | [], cs => some cs
  | Tok.lit l :: ts, cs =>
      if l.isPrefixOf cs then runToks ts (cs.drop l.length) else none
  | Tok.digits :: ts, cs =>
      let ds := cs.takeWhile Char.isDigit
      if ds.isEmpty then none else runToks ts (cs.dropWhile Char.isDigit)

/-- Anchored whole-string match: embeds a `/^…$/` regex test. -/
def wholeMatch (ts : List Tok) (s : String) : Bool :=
  runToks ts s.data == some []

/-- Start-anchored match: embeds a `/^…/` regex test (no ending anchor). -/
def startMatch (ts : List Tok) (s : String) : Bool :=
  (runToks ts s.data).isSome

/-- Token form of `localhost:\d+`. -/
def patLocalhost : List Tok := [Tok.lit "localhost:".data, Tok.digits]

/-- Token form of `127\.0\.0\.1:\d+`. -/
def pat127 : List Tok := [Tok.lit "127.0.0.1:".data, Tok.digits]

/-- Token form of `192\.168\.\d+\.\d+:\d+`. -/
def pat192 : List Tok :=
  [Tok.lit "192.168.".data, Tok.digits, Tok.lit ".".data, Tok.digits,
   Tok.lit ":".data, Tok.digits]

/-- Token form of `10\.\d+\.\d+\.\d+:\d+`. -/
def pat10 : List Tok :=
  [Tok.lit "10.".data, Tok.digits, Tok.lit ".".data, Tok.digits,
   Tok.lit ".".data, Tok.digits, Tok.lit ":".data, Tok.digits]

/-- The four private/loopback host patterns shared by `isValidUrl` (anchored
on both ends there) and `formatUrl` (start-anchored there). -/
def localhostPatterns : List (List Tok) := [patLocalhost, pat127, pat192, pat10]

/-- The `localhostPatterns.some((pattern) => pattern.test(urlString))` check of
`isValidUrl`, whose regexes are anchored `/^…$/`. -/
def matchesPrivateFull (s : String) : Bool :=
  localhostPatterns.any (fun p => wholeMatch p s)

/-- The pattern check of `formatUrl`, whose regexes carry only the `^` anchor. -/
def matchesPrivateStart (s : String) : Bool :=
  localhostPatterns.any (fun p => startMatch p s)

/-- Scheme characters after the first, per the WHATWG URL grammar: ASCII
alphanumeric, plus, minus or dot. -/
def isSchemeChar (c : Char) : Bool :=
  c.isAlphanum || c == '+' || c == '-' || c == '.'

/-- Splits the input at the first colon, if any. -/
def splitAtColon : List Char → Option (List Char × List Char)
  | [] => none
  | c :: cs =>
      if c == ':' then some ([], cs)
      else (splitAtColon cs).map (fun p => (c :: p.1, p.2))

/-- A valid URL scheme: an ASCII letter followed by scheme characters. -/
def validScheme (cs : List Char) : Bool :=
  match cs with
  | [] => false
  | c :: rest => c.isAlpha && rest.all isSchemeChar

/-- ASCII lowercasing, as the WHATWG parser applies to the scheme. -/
def asciiLower (c : Char) : Char :=
  if 'A' ≤ c && c ≤ 'Z' then Char.ofNat (c.toNat + 32) else c

/-- The WHATWG special schemes that require a non-empty host (file excepted). -/
def specialSchemes : List (List Char) :=
  ["http".data, "https".data, "ws".data, "wss".data, "ftp".data]

/-- Models the fragment of the WHATWG `new URL(input)` parser that
`isValidUrl` exercises: `some protocol` when parsing succeeds, `none` when the
constructor throws.  An input with no valid scheme prefix (no colon, or a
scheme not starting with an ASCII letter — e.g. `127.0.0.1:8080` or
`example.com`) throws; a special scheme needs a non-empty host after the
slashes; any other scheme (e.g. the `localhost` of `localhost:3000`) parses as
an opaque-path URL with that protocol.  Host-character validation and
whitespace stripping of the full standard are outside the inputs considered
here. -/
def urlProtocol (s : String) : Option String :=
  match splitAtColon s.data with
  | none => none
  | some (schemeChars, rest) =>
      if validScheme schemeChars then
        let scheme := schemeChars.map asciiLower
        if specialSchemes.contains scheme then
          let afterSlashes := rest.dropWhile (fun c => c == '/' || c == '\\')
          let host := afterSlashes.takeWhile
            (fun c => !(c == '/' || c == '?' || c == '#' || c == '\\'))
          if host.isEmpty then none else some (String.mk (scheme ++ [':']))
        else some (String.mk (scheme ++ [':']))
      else none

/-- Embeds `isValidUrl` (src/unnamed/part_000 lines 395-410): try
`new URL(urlString)` and demand protocol http/https; only when the constructor
throws fall back to the anchored private-host patterns. -/
def isValidUrl (s : String) : Bool :=
  match urlProtocol s with
  | some p => p == "http:" || p == "https:"
  | none => matchesPrivateFull s

/-- Embeds `formatUrl` (src/unnamed/part_000 lines 412-434): empty input is
returned as is (`if (!inputUrl) return ""`); inputs already starting with
`http://` or `https://` are returned unchanged; start-anchored private-host
matches get `http://`; everything else gets `https://`. -/
def formatUrl (inputUrl : String) : String :=
  if inputUrl = "" then ""
  else if "http://".data.isPrefixOf inputUrl.data ||
      "https://".data.isPrefixOf inputUrl.data then inputUrl
  else if matchesPrivateStart inputUrl then "http://" ++ inputUrl
  else "https://" ++ inputUrl

/-- C8 counterexample: the bare input `localhost:3000` matches the anchored
private pattern, yet `isValidUrl` rejects it: `new URL("localhost:3000")` does
not throw — it parses with protocol `localhost:` — so the pattern fallback of
the catch branch is never consulted and the http/https test fails. -/
theorem isValidUrl_rejects_bare_localhost :
    matchesPrivateFull "localhost:3000" = true ∧
    urlProtocol "localhost:3000" = some "localhost:" ∧
    isValidUrl "localhost:3000" = false := by
  decide

/-- C8 amended: `isValidUrl` accepts an input exactly when it parses as a URL
with protocol http or https, or fails to parse as a URL at all and matches one
of the four anchored private/loopback host:port patterns.  The dotted
private-host forms cannot start a URL scheme, so they throw and are accepted
through the patterns; bare `localhost:3000` parses with protocol `localhost:`
and is therefore rejected by `isValidUrl` itself — the page handler accepts it
end to end only because it applies `formatUrl` before validating. -/
theorem isValidUrl_characterization (s : String) :
    (isValidUrl s = true ↔
      (urlProtocol s = some "http:" ∨ urlProtocol s = some "https:") ∨
      (urlProtocol s = none ∧ matchesPrivateFull s = true)) ∧
    isValidUrl "http://localhost:3000" = true ∧
    isValidUrl "127.0.0.1:3000" = true ∧
    isValidUrl "192.168.1.100:3000" = true ∧
    isValidUrl "10.0.0.5:8080" = true ∧
    isValidUrl "localhost:3000" = false ∧
    isValidUrl (formatUrl "localhost:3000") = true := by
  refine ⟨?_, by decide, by decide, by decide, by decide, by decide, by decide⟩
  cases h : urlProtocol s with
  | none => simp [isValidUrl, h]
  | some p => simp [isValidUrl, h]

/-- C8 witness: a well-formed https URL parses with protocol https and is
accepted. -/
theorem isValidUrl_characterization_witness :
    isValidUrl "https://example.com" = true := by
  have h := (isValidUrl_characterization "https://example.com").1
  exact h.mpr (Or.inl (Or.inr (by decide)))

/-- C9 counterexample: two parts of the claim fail.  First, the empty bare
input is returned unchanged (`if (!inputUrl) return ""`), not prefixed with
`https://`.  Second, on the normalized private-host URL the synthetic value is
not always below 1.3: the draw 0.9996 gives 1.2996, which `toFixed(2)` rounds
up to 1.30. -/
theorem formatUrl_probe_range_counterexample :
    formatUrl "" = "" ∧
    ("" : String) ≠ "https://" ∧
    (0 : ℚ) ≤ 2499 / 2500 ∧ (2499 / 2500 : ℚ) < 1 ∧
    (simulateLoadTimeTest (formatUrl "localhost:3000")
      { rand := 2499 / 2500, fetchFails := false, elapsedMs := 0 }).value = 13 / 10 ∧
    ¬((simulateLoadTimeTest (formatUrl "localhost:3000")
      { rand := 2499 / 2500, fetchFails := false, elapsedMs := 0 }).value < 13 / 10) := by
  have hval : (simulateLoadTimeTest (formatUrl "localhost:3000")
      { rand := 2499 / 2500, fetchFails := false, elapsedMs := 0 }).value = 13 / 10 := by
    have e : (simulateLoadTimeTest (formatUrl "localhost:3000")
        { rand := 2499 / 2500, fetchFails := false, elapsedMs := 0 }).value =
        round2 ((2499 : ℚ) / 2500 * 1 + 3 / 10) := rfl
    rw [e, round2_eval _ 130 (by norm_num) (by norm_num)]
    norm_num
  exact ⟨rfl, by decide, by norm_num, by norm_num, hval,
    by rw [hval]; exact lt_irrefl _⟩

/-- C9 amended: `formatUrl` keeps http/https-prefixed inputs unchanged,
prefixes `http://` to non-empty inputs whose start matches a private host:port
pattern, prefixes `https://` to the other non-empty inputs, and returns the
empty input unchanged.  On the normalized private-host URL the probe takes the
local branch: no fetch is attempted and the value is the draw plus 0.3,
rounded to hundredths — hence between 0.3 and 1.3 inclusive (the upper end is
reached by rounding up draws at 0.995 and above). -/
theorem formatUrl_and_local_probe (u : String) (env : ProbeEnv) :
    formatUrl "" = "" ∧
    (("http://".data.isPrefixOf u.data || "https://".data.isPrefixOf u.data) = true →
      formatUrl u = u) ∧
    (u ≠ "" →
      ("http://".data.isPrefixOf u.data || "https://".data.isPrefixOf u.data) = false →
      matchesPrivateStart u = true → formatUrl u = "http://" ++ u) ∧
    (u ≠ "" →
      ("http://".data.isPrefixOf u.data || "https://".data.isPrefixOf u.data) = false →
      matchesPrivateStart u = false → formatUrl u = "https://" ++ u) ∧
    formatUrl "localhost:3000" = "http://localhost:3000" ∧
    (simulateLoadTimeTest (formatUrl "localhost:3000") env).fetchAttempted = false ∧
    (simulateLoadTimeTest (formatUrl "localhost:3000") env).value =
      round2 (env.rand * 1 + 3 / 10) ∧
    (0 ≤ env.rand → env.rand < 1 →
      3 / 10 ≤ (simulateLoadTimeTest (formatUrl "localhost:3000") env).value ∧
      (simulateLoadTimeTest (formatUrl "localhost:3000") env).value ≤ 13 / 10) := by
  have eval : (simulateLoadTimeTest (formatUrl "localhost:3000") env).value =
      round2 (env.rand * 1 + 3 / 10) := rfl
  refine ⟨rfl, ?_, ?_, ?_, by decide, rfl, eval, ?_⟩
  · intro h
    by_cases he : u = ""
    · subst he; exact absurd h (by decide)
    · simp [formatUrl, he, h]
  · intro hne hpre hpriv
    simp [formatUrl, hne, hpre, hpriv]
  · intro hne hpre hpriv
    simp [formatUrl, hne, hpre, hpriv]
  · intro h0 h1
    have hlo : ((30 : ℤ) : ℚ) / 100 ≤ env.rand * 1 + 3 / 10 := by push_cast; linarith
    have hhi : env.rand * 1 + 3 / 10 < ((130 : ℤ) : ℚ) / 100 := by push_cast; linarith
    have hge := le_round2 30 hlo
    have hle := round2_le 130 hhi
    norm_num at hge hle
    rw [eval, mul_one]
    exact ⟨hge, hle⟩

/-- C9 witness: a plain domain gets the `https://` prefix, and the local probe
value respects its lower bound at draw 0. -/
theorem formatUrl_and_local_probe_witness :
    formatUrl "example.com" = "https://example.com" ∧
    3 / 10 ≤ (simulateLoadTimeTest (formatUrl "localhost:3000")
      { rand := 0, fetchFails := false, elapsedMs := 0 }).value := by
  have h := formatUrl_and_local_probe "example.com"
    { rand := 0, fetchFails := false, elapsedMs := 0 }
  constructor
  · exact h.2.2.2.1 (by decide) (by decide) (by decide)
  · exact (h.2.2.2.2.2.2.2 (le_refl 0) zero_lt_one).1

/-- C4 witness: on the C2 bundle the broken-links category fires, so its fixed
recommendation string is present. -/
theorem generateTestResults_issues_and_recommendations_witness :
    "Fix broken links to improve user experience and SEO" ∈
      (generateTestResults "https://example.com" "2024-01-01T00:00:00.000Z"
        td45).recommendations := by
  have h := generateTestResults_issues_and_recommendations "https://example.com"
    "2024-01-01T00:00:00.000Z" td45
  exact h.2.2.2.2.1.mpr (by simp [td45])
